import Mathlib

/-!
Verification development for the TDX file-based launcher
(`vm_images/launcher/launcher.py`).

The Python source is shallowly embedded: bytes are `Nat` values below 256,
byte strings are `List Nat`, Python `str` values are `String` / `List Char`,
raising functions return `Except String` or `Option`, and the filesystem /
network effects of `main` are captured by an explicit environment record and
a trace of artifact writes.
-/

namespace Launcher

/-! ## Lowercase hex encoding (Python `bytes.hex()`) -/

/-- One lowercase hex digit, `0..9a..f`, for `n < 16`. -/
def hexDigit (n : Nat) : Char :=
  if n < 10 then Char.ofNat (48 + n) else Char.ofNat (87 + n)

/-- Two lowercase hex digits of a byte, as produced by `bytes.hex()`. -/
def byteHex (b : Nat) : List Char :=
  [hexDigit (b / 16 % 16), hexDigit (b % 16)]

/-- Lowercase hex string of a byte sequence (`bytes.hex()`). -/
def bytesHex (bs : List Nat) : String :=
  String.mk (bs.map byteHex).flatten

/-! ## Standard base64 (Python `base64.b64encode` / `base64.b64decode`)

`b64d` models `base64.b64decode` on the inputs the launcher feeds it:
strings over the standard alphabet with correct trailing `=` padding.
(The CPython decoder additionally discards foreign characters before
decoding; the launcher only ever decodes its own encoder output and
padding-normalized JWT segments, which are alphabet-only.) -/

/-- Character of the standard base64 alphabet at index `n < 64`. -/
def b64Char (n : Nat) : Char :=
  if n < 26 then Char.ofNat (65 + n)
  else if n < 52 then Char.ofNat (71 + n)
  else if n < 62 then Char.ofNat (n - 4)
  else if n = 62 then '+'
  else '/'

/-- Index of a standard-alphabet base64 character, `none` otherwise. -/
def b64Val (c : Char) : Option Nat :=
  if 'A' ≤ c ∧ c ≤ 'Z' then some (c.toNat - 65)
  else if 'a' ≤ c ∧ c ≤ 'z' then some (c.toNat - 71)
  else if '0' ≤ c ∧ c ≤ '9' then some (c.toNat + 4)
  else if c = '+' then some 62
  else if c = '/' then some 63
  else none

/-- `base64.b64encode` on a byte sequence. -/
def b64e : List Nat → List Char
  | [] => []
  | [a] => [b64Char (a / 4), b64Char (a % 4 * 16), '=', '=']
  | [a, b] => [b64Char (a / 4), b64Char (a % 4 * 16 + b / 16), b64Char (b % 16 * 4), '=']
  | a :: b :: c :: rest =>
    b64Char (a / 4) :: b64Char (a % 4 * 16 + b / 16) ::
      b64Char (b % 16 * 4 + c / 64) :: b64Char (c % 64) :: b64e rest

/-- `base64.b64decode` on alphabet-only input with trailing padding. -/
def b64d : List Char → Option (List Nat)
  | [] => some []
  | c1 :: c2 :: c3 :: c4 :: rest =>
    match b64Val c1, b64Val c2 with
    | some a, some b =>
      if c3 = '=' then
        if c4 = '=' ∧ rest = [] then some [a * 4 + b / 16] else none
      else
        match b64Val c3 with
        | some c =>
          if c4 = '=' then
            if rest = [] then some [a * 4 + b / 16, b % 16 * 16 + c / 4] else none
          else
            match b64Val c4 with
            | some d =>
              match b64d rest with
              | some tail =>
                some ((a * 4 + b / 16) :: (b % 16 * 16 + c / 4) :: (c % 4 * 64 + d) :: tail)
              | none => none
            | none => none
        | none => none
    | _, _ => none
  | _ => none

/-! ## `parse_tdx_quote` -/

/-- Values of the measurement dictionary returned by `parse_tdx_quote`:
integers (`quote_size`, `version`) or hex strings. -/
inductive FieldVal where
  | nat (n : Nat)
  | str (s : String)
deriving DecidableEq

/-- Python slice `q[off : off + len]`. -/
def sliceBytes (q : List Nat) (off len : Nat) : List Nat :=
  (q.drop off).take len

/-- Hex-string field extracted from slice `q[off : off + len]`. -/
def sliceHex (q : List Nat) (off len : Nat) : FieldVal :=
  .str (bytesHex (sliceBytes q off len))

/-- Body of `parse_tdx_quote` after base64 decoding: the length guard and the
fixed-offset field extraction (`td_report_offset = 48`). -/
def parseQuoteBytes (q : List Nat) : List (String × FieldVal) :=
  if q.length < 584 then [("error", .str "Quote too short")]
  else
    let o := 48
    [ ("quote_size", .nat q.length),
      ("version", .nat (q.getD 0 0 + 256 * q.getD 1 0)),
      ("tee_tcb_svn", sliceHex q o 16),
      ("mrseam", sliceHex q (o + 16) 48),
      ("mrsigner_seam", sliceHex q (o + 64) 48),
      ("seam_attributes", sliceHex q (o + 112) 8),
      ("td_attributes", sliceHex q (o + 120) 8),
      ("xfam", sliceHex q (o + 128) 8),
      ("mrtd", sliceHex q (o + 136) 48),
      ("mr_config_id", sliceHex q (o + 184) 48),
      ("mr_owner", sliceHex q (o + 232) 48),
      ("mr_owner_config", sliceHex q (o + 280) 48),
      ("rtmr0", sliceHex q (o + 328) 48),
      ("rtmr1", sliceHex q (o + 376) 48),
      ("rtmr2", sliceHex q (o + 424) 48),
      ("rtmr3", sliceHex q (o + 472) 48),
      ("report_data", sliceHex q (o + 520) 64) ]

/-- `parse_tdx_quote`: base64-decode, then extract the fixed binary layout. -/
def parse_tdx_quote (s : String) : List (String × FieldVal) :=
  match b64d s.data with
  | none => [("error", .str "Invalid base64 quote")]
  | some q => parseQuoteBytes q

/-- Names of the measurement fields of a parsed quote. -/
def measurementKeys : List String :=
  ["version", "tee_tcb_svn", "mrseam", "mrsigner_seam", "seam_attributes",
   "td_attributes", "xfam", "mrtd", "mr_config_id", "mr_owner",
   "mr_owner_config", "rtmr0", "rtmr1", "rtmr2", "rtmr3", "report_data"]

/-! ## JSON values and a model of `json.loads`

`json.loads` is the Python standard library's JSON parser; the launcher
feeds it the decoded JWT payload (ASCII in every case the spec covers).
It is modelled by an executable recursive-descent parser over `JValue`.
Numbers are kept as their lexemes (the launcher never inspects them). -/

inductive JValue where
  | null
  | bool (b : Bool)
  | num (lexeme : String)
  | str (s : String)
  | arr (elems : List JValue)
  | obj (fields : List (String × JValue))

/-- Drop leading JSON whitespace. -/
def skipWs : List Char → List Char
  | c :: r => if c = ' ' ∨ c = '\t' ∨ c = '\n' ∨ c = '\r' then skipWs r else c :: r
  | [] => []

/-- Value of one hex digit character. -/
def hexVal (c : Char) : Option Nat :=
  if '0' ≤ c ∧ c ≤ '9' then some (c.toNat - 48)
  else if 'a' ≤ c ∧ c ≤ 'f' then some (c.toNat - 87)
  else if 'A' ≤ c ∧ c ≤ 'F' then some (c.toNat - 55)
  else none

/-- Scan the body of a JSON string literal (after the opening quote),
returning the unescaped characters and the input after the closing quote. -/
def scanJString : List Char → List Char → Option (List Char × List Char)
  | acc, '"' :: r => some (acc.reverse, r)
  | acc, '\\' :: e :: r =>
    match e with
    | '"' => scanJString ('"' :: acc) r
    | '\\' => scanJString ('\\' :: acc) r
    | '/' => scanJString ('/' :: acc) r
    | 'b' => scanJString ('\x08' :: acc) r
    | 'f' => scanJString ('\x0c' :: acc) r
    | 'n' => scanJString ('\n' :: acc) r
    | 'r' => scanJString ('\r' :: acc) r
    | 't' => scanJString ('\t' :: acc) r
    | 'u' =>
      match r with
      | h1 :: h2 :: h3 :: h4 :: r2 =>
        match hexVal h1, hexVal h2, hexVal h3, hexVal h4 with
        | some a, some b, some c, some d =>
          scanJString (Char.ofNat (a * 4096 + b * 256 + c * 16 + d) :: acc) r2
        | _, _, _, _ => none
      | _ => none
    | _ => none
  | acc, c :: r => scanJString (c :: acc) r
  | _, [] => none

/-- Characters that may occur in a JSON number lexeme. -/
def isNumChar (c : Char) : Bool :=
  c.isDigit || c = '-' || c = '+' || c = '.' || c = 'e' || c = 'E'

/-- Grab a JSON number lexeme. -/
def scanJNum (s : List Char) : Option (String × List Char) :=
  let lex := s.takeWhile isNumChar
  if lex.isEmpty then none else some (String.mk lex, s.drop lex.length)

mutual

/-- Parse one JSON value (fuel-bounded recursive descent). -/
def parseJVal : Nat → List Char → Option (JValue × List Char)
  | 0, _ => none
  | Nat.succ fuel, s =>
    match skipWs s with
    | 'n' :: 'u' :: 'l' :: 'l' :: r => some (.null, r)
    | 't' :: 'r' :: 'u' :: 'e' :: r => some (.bool true, r)
    | 'f' :: 'a' :: 'l' :: 's' :: 'e' :: r => some (.bool false, r)
    | '"' :: r =>
      match scanJString [] r with
      | some (cs, r2) => some (.str (String.mk cs), r2)
      | none => none
    | '\x7b' :: r =>
      (match skipWs r with
       | '\x7d' :: r2 => some (.obj [], r2)
       | s2 => parseJMembers fuel s2 [])
    | '[' :: r =>
      (match skipWs r with
       | ']' :: r2 => some (.arr [], r2)
       | s2 => parseJElems fuel s2 [])
    | s2 =>
      match scanJNum s2 with
      | some (lex, r) => some (.num lex, r)
      | none => none

/-- Parse the members of a JSON object, first member pending. -/
def parseJMembers : Nat → List Char → List (String × JValue) →
    Option (JValue × List Char)
  | 0, _, _ => none
  | Nat.succ fuel, s, acc =>
    match skipWs s with
    | '"' :: r =>
      (match scanJString [] r with
       | some (kcs, r2) =>
         (match skipWs r2 with
          | ':' :: r3 =>
            (match parseJVal fuel r3 with
             | some (v, r4) =>
               (match skipWs r4 with
                | ',' :: r5 => parseJMembers fuel r5 ((String.mk kcs, v) :: acc)
                | '\x7d' :: r5 => some (.obj ((String.mk kcs, v) :: acc).reverse, r5)
                | _ => none)
             | none => none)
          | _ => none)
       | none => none)
    | _ => none

/-- Parse the elements of a JSON array, first element pending. -/
def parseJElems : Nat → List Char → List JValue → Option (JValue × List Char)
  | 0, _, _ => none
  | Nat.succ fuel, s, acc =>
    match parseJVal fuel s with
    | some (v, r) =>
      (match skipWs r with
       | ',' :: r2 => parseJElems fuel r2 (v :: acc)
       | ']' :: r2 => some (.arr (v :: acc).reverse, r2)
       | _ => none)
    | none => none

end

/-- Model of `json.loads` on a decoded byte string (ASCII reading). -/
def jsonLoads (bs : List Nat) : Option JValue :=
  let s := bs.map Char.ofNat
  match parseJVal (s.length + 1) s with
  | some (v, r) => if (skipWs r).isEmpty then some v else none
  | none => none

/-! ## `parse_jwt_claims` -/

/-- Python `dict.get` on a parsed JSON object (last occurrence wins,
as for duplicate keys in `json.loads`). -/
def jGet (kvs : List (String × JValue)) (k : String) : Option JValue :=
  ((kvs.filter (fun p => p.1 = k)).getLast?).map (fun p => p.2)

/-- Python `str.split('.')`. -/
def splitOnDot : List Char → List (List Char)
  | [] => [[]]
  | c :: r =>
    let rest := splitOnDot r
    if c = '.' then [] :: rest
    else
      match rest with
      | g :: gs => (c :: g) :: gs
      | [] => [[c]]

/-- Padding normalization of the JWT payload:
`padding = 4 - len % 4; if padding != 4: payload += '=' * padding`. -/
def padB64 (p : List Char) : List Char :=
  let pad := 4 - p.length % 4
  if pad ≠ 4 then p ++ List.replicate pad '=' else p

/-- URL-safe alphabet replacement: `replace('-', '+').replace('_', '/')`. -/
def urlFix (c : Char) : Char :=
  if c = '-' then '+' else if c = '_' then '/' else c

/-- The seven-entry claims dictionary built from the `tdx` object. -/
def tdxLeaves (t : List (String × JValue)) : List (String × Option JValue) :=
  [("mrtd", jGet t "tdx_mrtd"),
   ("rtmr0", jGet t "tdx_rtmr0"),
   ("rtmr1", jGet t "tdx_rtmr1"),
   ("rtmr2", jGet t "tdx_rtmr2"),
   ("rtmr3", jGet t "tdx_rtmr3"),
   ("report_data", jGet t "tdx_report_data"),
   ("attester_tcb_status", jGet t "attester_tcb_status")]

/-- The claims extraction applied to the parsed JSON payload:
`claims.get("tdx", {})` followed by the seven `tdx.get(...)` reads.
A non-object payload or a non-object `tdx` value raises `AttributeError`
inside the `try`, which the handler turns into `{}`. -/
def extractTdxClaims (v : JValue) : List (String × Option JValue) :=
  match v with
  | .obj kvs =>
    match jGet kvs "tdx" with
    | none => tdxLeaves []
    | some (.obj t) => tdxLeaves t
    | some _ => []
  | _ => []

/-- `parse_jwt_claims` on the character list of the JWT string. -/
def parseJwtClaimsL (jwt : List Char) : List (String × Option JValue) :=
  let parts := splitOnDot jwt
  if parts.length ≠ 3 then []
  else
    let payload := (padB64 (parts.getD 1 [])).map urlFix
    match b64d payload with
    | none => []
    | some bs =>
      match jsonLoads bs with
      | none => []
      | some v => extractTdxClaims v

/-- `parse_jwt_claims`: split the JWT, base64url-decode the middle segment
with padding normalization, parse it as JSON and extract the `tdx` leaves. -/
def parse_jwt_claims (jwt : String) : List (String × Option JValue) :=
  parseJwtClaimsL jwt.data

/-! ## SHA-256 (`hashlib.sha256(...).hexdigest()`)

Executable FIPS 180-4 SHA-256 over byte lists, used by
`compute_compose_hash`. -/

/-- Reduction modulo `2 ^ 32`. -/
def m32 (n : Nat) : Nat := n % 4294967296

/-- Right rotation of a 32-bit word by `n` positions. -/
def rotr32 (n x : Nat) : Nat := m32 (x / 2 ^ n + x % 2 ^ n * 2 ^ (32 - n))

/-- Logical right shift. -/
def shr32 (n x : Nat) : Nat := x / 2 ^ n

/-- Three-way xor. -/
def xor3 (a b c : Nat) : Nat := Nat.xor (Nat.xor a b) c

/-- SHA-256 Σ0. -/
def bigS0 (x : Nat) : Nat := xor3 (rotr32 2 x) (rotr32 13 x) (rotr32 22 x)

/-- SHA-256 Σ1. -/
def bigS1 (x : Nat) : Nat := xor3 (rotr32 6 x) (rotr32 11 x) (rotr32 25 x)

/-- SHA-256 σ0. -/
def smS0 (x : Nat) : Nat := xor3 (rotr32 7 x) (rotr32 18 x) (shr32 3 x)

/-- SHA-256 σ1. -/
def smS1 (x : Nat) : Nat := xor3 (rotr32 17 x) (rotr32 19 x) (shr32 10 x)

/-- SHA-256 Ch. -/
def shaCh (e f g : Nat) : Nat :=
  Nat.xor (Nat.land e f) (Nat.land (Nat.xor e 4294967295) g)

/-- SHA-256 Maj. -/
def shaMaj (a b c : Nat) : Nat :=
  Nat.xor (Nat.xor (Nat.land a b) (Nat.land a c)) (Nat.land b c)

/-- The 64 SHA-256 round constants of FIPS 180-4, as decimal words. -/
def shaK : List Nat :=
  [1116352408, 1899447441, 3049323471, 3921009573, 961987163, 1508970993,
   2453635748, 2870763221, 3624381080, 310598401, 607225278, 1426881987,
   1925078388, 2162078206, 2614888103, 3248222580, 3835390401, 4022224774,
   264347078, 604807628, 770255983, 1249150122, 1555081692, 1996064986,
   2554220882, 2821834349, 2952996808, 3210313671, 3336571891, 3584528711,
   113926993, 338241895, 666307205, 773529912, 1294757372, 1396182291,
   1695183700, 1986661051, 2177026350, 2456956037, 2730485921, 2820302411,
   3259730800, 3345764771, 3516065817, 3600352804, 4094571909, 275423344,
   430227734, 506948616, 659060556, 883997877, 958139571, 1322822218,
   1537002063, 1747873779, 1955562222, 2024104815, 2227730452, 2361852424,
   2428436474, 2756734187, 3204031479, 3329325298]

/-- The SHA-256 initial hash value of FIPS 180-4, as decimal words. -/
def shaH0 : List Nat :=
  [1779033703, 3144134277, 1013904242, 2773480762,
   1359893119, 2600822924, 528734635, 1541459225]

/-- SHA-256 message padding: `0x80`, zeros to 56 mod 64, 64-bit bit length. -/
def shaPad (msg : List Nat) : List Nat :=
  let len := msg.length
  let z := (120 - (len + 1) % 64) % 64
  let bits := 8 * len
  msg ++ [128] ++ List.replicate z 0 ++
    [bits / 2 ^ 56 % 256, bits / 2 ^ 48 % 256, bits / 2 ^ 40 % 256,
     bits / 2 ^ 32 % 256, bits / 2 ^ 24 % 256, bits / 2 ^ 16 % 256,
     bits / 2 ^ 8 % 256, bits % 256]

/-- Big-endian 32-bit words of a byte list. -/
def toWordsBE : List Nat → List Nat
  | a :: b :: c :: d :: r => (a * 16777216 + b * 65536 + c * 256 + d) :: toWordsBE r
  | _ => []

/-- One message-schedule extension step. -/
def extendStep (w : List Nat) : List Nat :=
  w ++ [m32 (smS1 (w.getD (w.length - 2) 0) + w.getD (w.length - 7) 0 +
             smS0 (w.getD (w.length - 15) 0) + w.getD (w.length - 16) 0)]

/-- Iterate the message-schedule extension. -/
def extendN : Nat → List Nat → List Nat
  | 0, w => w
  | Nat.succ n, w => extendN n (extendStep w)

/-- One SHA-256 compression round over the state `[a, b, c, d, e, f, g, h]`. -/
def shaRound (st : List Nat) (wk : Nat × Nat) : List Nat :=
  match st with
  | [a, b, c, d, e, f, g, h] =>
    let t1 := m32 (h + bigS1 e + shaCh e f g + wk.2 + wk.1)
    let t2 := m32 (bigS0 a + shaMaj a b c)
    [m32 (t1 + t2), a, b, c, m32 (d + t1), e, f, g]
  | other => other

/-- Process one 64-byte block. -/
def shaBlock (h : List Nat) (block : List Nat) : List Nat :=
  let w := extendN 48 (toWordsBE block)
  let st := (w.zip shaK).foldl shaRound h
  (h.zip st).map (fun p => m32 (p.1 + p.2))

/-- Split into 64-byte blocks, with fuel bounding the number of blocks. -/
def chunk64Fuel : Nat → List Nat → List (List Nat)
  | 0, _ => []
  | Nat.succ n, l => if l.isEmpty then [] else l.take 64 :: chunk64Fuel n (l.drop 64)

/-- Split a padded message into 64-byte blocks. -/
def chunk64 (l : List Nat) : List (List Nat) := chunk64Fuel (l.length + 1) l

/-- SHA-256 digest bytes of a byte-list message. -/
def sha256bytes (msg : List Nat) : List Nat :=
  let hs := (chunk64 (shaPad msg)).foldl shaBlock shaH0
  (hs.map (fun w => [w / 16777216 % 256, w / 65536 % 256, w / 256 % 256, w % 256])).flatten

/-- `hashlib.sha256(msg).hexdigest()`. -/
def sha256hex (msg : List Nat) : String := bytesHex (sha256bytes msg)

/-! ## The lifecycle controller (`main` and its helpers)

The external world (shared filesystem, docker, the health endpoint, the
ConfigFS-TSM interface, the Intel Trust Authority) is an explicit
environment record; `mainRun` produces the trace of `status` writes, the
`error.log` write, the `attestation.json` write, and the process outcome. -/

/-- The parsed `config.json` object (absent keys are `none`). -/
structure Config where
  mode : Option String := none
  healthEndpoint : Option String := none
  healthPort : Option Nat := none
  healthUrl : Option String := none
  intelApiKey : Option String := none
  intelApiUrl : Option String := none
  composeUpArgs : Option String := none

/-- Python truthiness of `config.get(key)` / `config.get(key, "")` for a
string-valued key: present and non-empty. -/
def truthyS (o : Option String) : Bool := !(o.getD "").isEmpty

/-- The external world of one launcher run.
`mounted i` is the result of the `i`-th mount check; `healthOk i` the
result of the `i`-th health probe; `intelResponse` is the Trust Authority
call (`.error` = raised exception, `.ok tok?` = HTTP 200 whose JSON has
`token = tok?`); `outblob` the quote bytes produced by the TSM interface. -/
structure Env where
  mounted : Nat → Bool
  configAppears : Bool
  config : Config
  composePresent : Bool
  composeOk : Bool
  composeStderr : String
  composeBytes : List Nat
  healthOk : Nat → Bool
  healthResponse : String
  tsmPresent : Bool
  outblob : List Nat
  intelResponse : Except String (Option String)
  timestamp : String

/-- The health dictionary built by `wait_for_health` / the persistent branch. -/
structure HealthStatus where
  status : String
  response : Option String := none
  error : Option String := none

/-- The `tdx` section of `attestation.json`. -/
structure TdxSection where
  quote_b64 : String
  measurements : List (String × FieldVal)
  intel_ta_token : Option String := none
  verified_measurements : Option (List (String × Option JValue)) := none
  intel_ta_error : Option String := none

/-- The `workload` section of `attestation.json`. -/
structure WorkloadSection where
  compose_hash : String
  health_status : String

/-- The `attestation.json` document. -/
structure AttestResult where
  timestamp : String
  tdx : TdxSection
  workload : WorkloadSection

/-- How the process run ends. -/
inductive Outcome where
  | exited (code : Nat)
  | raisedErr (msg : String)
  | hold
  | blocked
deriving DecidableEq

/-- Observable result of a launcher run: ordered `status` writes, the
`error.log` write, the `attestation.json` write, whether the health
endpoint was ever probed, and the outcome. -/
structure MainResult where
  statuses : List String
  errorLog : Option String
  attestation : Option AttestResult
  healthProbed : Bool
  outcome : Outcome

/-- `generate_tdx_quote`: raises when the ConfigFS-TSM path is absent,
otherwise returns the base64 of the `outblob` bytes. -/
def generate_tdx_quote (env : Env) : Except String String :=
  if env.tsmPresent then .ok (String.mk (b64e env.outblob))
  else .error "TDX not available: /sys/kernel/config/tsm/report does not exist"

/-- The error message of `generate_tdx_quote` when TDX is unavailable. -/
def tdxUnavailableMsg : String :=
  "TDX not available: /sys/kernel/config/tsm/report does not exist"

/-- `compute_compose_hash`: SHA-256 of the workload compose file, which
exists exactly when a compose descriptor was present and copied. -/
def compute_compose_hash (env : Env) : String :=
  if env.composePresent then sha256hex env.composeBytes else ""

/-- The health probe URL `f"http://localhost:{health_port}{health_endpoint}"`. -/
def healthUrlOf (cfg : Config) : String :=
  "http://localhost:" ++ toString (cfg.healthPort.getD 8080) ++ cfg.healthEndpoint.getD "/health"

/-- The message of the health-timeout `RuntimeError`. -/
def healthTimeoutMsg (cfg : Config) : String :=
  "Health check timeout after 120s: " ++ healthUrlOf cfg

/-- First of the 60 health attempts that succeeds, if any. -/
def findHealth (env : Env) : Option Nat := (List.range 60).find? env.healthOk

/-- `wait_for_health`: writes `waiting_for_health`, polls up to 60 times,
raises the timeout error otherwise. -/
def wait_for_health (env : Env) : List String × Except String HealthStatus :=
  (["waiting_for_health"],
   match findHealth env with
   | some _ => .ok ⟨"healthy", some env.healthResponse, none⟩
   | none => .error (healthTimeoutMsg env.config))

/-- The result dictionary assembled by `get_tdx_attestation` before the
Trust Authority call: timestamp, quote, parsed local measurements,
compose hash and health status. -/
def attestBase (env : Env) (health : HealthStatus) (qb64 : String) : AttestResult :=
  { timestamp := env.timestamp,
    tdx := { quote_b64 := qb64, measurements := parse_tdx_quote qb64 },
    workload := { compose_hash := "sha256:" ++ compute_compose_hash env,
                  health_status := health.status } }

/-- The `if intel_api_key:` block of `get_tdx_attestation`: call the Trust
Authority, record the token, the re-derived claims (when non-empty) or the
call error; skipped entirely without an API key. A raised call is caught
and recorded as `intel_ta_error`. -/
def applyIntel (env : Env) (base : AttestResult) : AttestResult :=
  if truthyS env.config.intelApiKey then
    match env.intelResponse with
    | .error e => { base with tdx := { base.tdx with intel_ta_error := some e } }
    | .ok none => base
    | .ok (some tok) =>
      let withTok : AttestResult :=
        { base with tdx := { base.tdx with intel_ta_token := some tok } }
      let jm := parse_jwt_claims tok
      if jm.isEmpty then withTok
      else { withTok with tdx := { withTok.tdx with verified_measurements := some jm } }
  else base

/-- `get_tdx_attestation`: writes `attesting`, generates and parses the
quote, assembles the result, and calls the Trust Authority only when an
API key is configured; a Trust Authority failure is recorded in the
result, never raised. -/
def get_tdx_attestation (env : Env) (health : HealthStatus) :
    List String × Except String AttestResult :=
  (["attesting"],
   match generate_tdx_quote env with
   | .error e => .error e
   | .ok qb64 => .ok (applyIntel env (attestBase env health qb64)))

/-- Workload setup and compose phase: when a compose descriptor is present
in the share, `setup_workload` writes `setup` and `run_compose` writes
`building` and raises on a non-zero compose exit; otherwise both are
skipped. -/
def setupPhase (env : Env) : List String × Except String Unit :=
  if env.composePresent then
    (["setup", "building"],
     if env.composeOk then .ok ()
     else .error ("Docker compose failed: " ++ env.composeStderr))
  else ([], .ok ())

/-- The top-level exception handler: `write_error` writes `error.log` and
the `error` status, then re-raises. -/
def errResult (sts : List String) (probed : Bool) (e : String) : MainResult :=
  ⟨sts ++ ["error"], some e, none, probed, .raisedErr e⟩

/-- The measure-mode branch of `main` after setup. -/
def measureBranch (env : Env) (sts0 : List String) : MainResult :=
  match wait_for_health env with
  | (hsts, .error e) => errResult (sts0 ++ hsts) true e
  | (hsts, .ok health) =>
    match get_tdx_attestation env health with
    | (asts, .error e) => errResult (sts0 ++ hsts ++ asts) true e
    | (asts, .ok r) =>
      ⟨sts0 ++ hsts ++ asts ++ ["ready"], none, some r, true, .exited 0⟩

/-- The persistent-mode branch of `main` after setup: the probe runs only
when `health_endpoint` or `health_url` is truthy and its failure is
caught; attestation runs only when an API key is configured and its
failure is caught; the run then holds forever. -/
def persistentBranch (env : Env) (sts0 : List String) : MainResult :=
  let probe :=
    if truthyS env.config.healthEndpoint || truthyS env.config.healthUrl then
      match wait_for_health env with
      | (s, .ok h) => (true, s, h)
      | (s, .error e) => (true, s, (⟨"unhealthy", none, some e⟩ : HealthStatus))
    else (false, [], (⟨"unknown", none, none⟩ : HealthStatus))
  let att :=
    if truthyS env.config.intelApiKey then
      match get_tdx_attestation env probe.2.2 with
      | (s, .ok r) => (s, some r)
      | (s, .error _) => (s, (none : Option AttestResult))
    else ([], none)
  ⟨sts0 ++ probe.2.1 ++ att.1 ++ ["ready"], none, att.2, probe.1, .hold⟩

/-- The body of `main` inside the top-level `try`. -/
def mainBody (env : Env) : MainResult :=
  if ¬ env.configAppears then ⟨[], none, none, false, .blocked⟩
  else
    match setupPhase env with
    | (sts, .error e) => errResult sts false e
    | (sts, .ok _) =>
      if env.config.mode.getD "measure" = "persistent" then persistentBranch env sts
      else measureBranch env sts

/-- `main`: the mount-wait loop (60 attempts plus the re-check after the
loop) runs before the `try`; on mount failure the process returns 1 with
no artifact writes. -/
def mainRun (env : Env) : MainResult :=
  match (List.range 60).find? env.mounted with
  | some _ => mainBody env
  | none => if env.mounted 60 then mainBody env else ⟨[], none, none, false, .exited 1⟩

/-! ## Concrete inputs used by witnesses and counterexamples -/

/-- A 632-byte quote (48-byte header plus full 584-byte TD report). -/
def qW : List Nat := List.replicate 632 0

/-- A quote of exactly the minimum accepted length, 584 bytes. -/
def qS : List Nat := List.replicate 584 0

/-- A 10-byte quote, below the minimum length. -/
def qShort : List Nat := List.replicate 10 0

/-- A benign environment: mounted share, config present with no optional
keys, no compose descriptor, healthy workload, TSM present, no token. -/
def defEnv : Env :=
  { mounted := fun _ => true,
    configAppears := true,
    config := {},
    composePresent := false,
    composeOk := true,
    composeStderr := "",
    composeBytes := [],
    healthOk := fun _ => true,
    healthResponse := "ok",
    tsmPresent := true,
    outblob := [],
    intelResponse := .ok none,
    timestamp := "t" }

/-- Measure-mode environment whose TSM interface is absent. -/
def envMeasureNoTsm : Env := { defEnv with tsmPresent := false }

/-- Persistent-mode environment with an API key, no health keys, and an
absent TSM interface. -/
def envPersistNoTsm : Env :=
  { defEnv with
    config := { mode := some "persistent", intelApiKey := some "k" },
    tsmPresent := false,
    healthOk := fun _ => false }

/-- Environment whose share never mounts. -/
def envNoMount : Env := { defEnv with mounted := fun _ => false }

/-- Measure-mode environment with no compose descriptor. -/
def envMeasure : Env := { defEnv with config := { mode := some "measure" } }

/-- Persistent-mode environment with an API key and no health keys. -/
def envPersist : Env :=
  { defEnv with config := { mode := some "persistent", intelApiKey := some "k" } }

/-- Environment with a compose descriptor whose bytes are `b"abc"`. -/
def envCompose : Env := { defEnv with composePresent := true, composeBytes := [97, 98, 99] }

end Launcher

namespace Launcher

/-! ## Base64 round trip -/

theorem b64Val_b64Char : ∀ n < 64, b64Val (b64Char n) = some n := by decide

theorem b64Char_ne_pad : ∀ n < 64, b64Char n ≠ '=' := by decide

theorem b64_roundtrip : ∀ l : List Nat, (∀ b ∈ l, b < 256) → b64d (b64e l) = some l
  | [], _ => rfl
  | [a], h => by
    have ha : a < 256 := h a (by simp)
    have h1 : a / 4 < 64 := by omega
    have h2 : a % 4 * 16 < 64 := by omega
    simp [b64e, b64d, b64Val_b64Char _ h1, b64Val_b64Char _ h2]
    omega
  | [a, b], h => by
    have ha : a < 256 := h a (by simp)
    have hb : b < 256 := h b (by simp)
    have h1 : a / 4 < 64 := by omega
    have h2 : a % 4 * 16 + b / 16 < 64 := by omega
    have h3 : b % 16 * 4 < 64 := by omega
    simp [b64e, b64d, b64Val_b64Char _ h1, b64Val_b64Char _ h2, b64Val_b64Char _ h3,
      b64Char_ne_pad _ h3]
    omega
  | a :: b :: c :: rest, h => by
    have ha : a < 256 := h a (by simp)
    have hb : b < 256 := h b (by simp)
    have hc : c < 256 := h c (by simp)
    have h1 : a / 4 < 64 := by omega
    have h2 : a % 4 * 16 + b / 16 < 64 := by omega
    have h3 : b % 16 * 4 + c / 64 < 64 := by omega
    have h4 : c % 64 < 64 := by omega
    have ih : b64d (b64e rest) = some rest :=
      b64_roundtrip rest (fun x hx => h x (by simp [hx]))
    simp [b64e, b64d, b64Val_b64Char _ h1, b64Val_b64Char _ h2, b64Val_b64Char _ h3,
      b64Val_b64Char _ h4, b64Char_ne_pad _ h3, b64Char_ne_pad _ h4, ih]
    omega

/-- `parse_tdx_quote` on the base64 encoding of a byte sequence works on
exactly those bytes. -/
theorem parse_tdx_quote_b64e (q : List Nat) (hb : ∀ b ∈ q, b < 256) :
    parse_tdx_quote (String.mk (b64e q)) = parseQuoteBytes q := by
  unfold parse_tdx_quote
  rw [show (String.mk (b64e q)).data = b64e q from rfl, b64_roundtrip q hb]

/-! ## Claim C1 -/

/-- C1 (amended): for every quote byte sequence of length at least 584,
decoding its base64 encoding yields, for every documented field
simultaneously, the lowercase hex of the Python slice
`quote[offset : offset + width]` at the documented absolute offset
(version being the unsigned little-endian integer of bytes 0-2); every
slice that ends at or before byte 584 has its full documented width, and
`report_data` (64 bytes at offset 568) reaches its full width exactly when
the quote has at least 632 bytes — for lengths 584-631 it is truncated at
the end of the quote. -/
theorem C1_quote_fields (q : List Nat) (hb : ∀ b ∈ q, b < 256) (hl : 584 ≤ q.length) :
    parse_tdx_quote (String.mk (b64e q)) =
      [ ("quote_size", .nat q.length),
        ("version", .nat (q.getD 0 0 + 256 * q.getD 1 0)),
        ("tee_tcb_svn", sliceHex q 48 16),
        ("mrseam", sliceHex q 64 48),
        ("mrsigner_seam", sliceHex q 112 48),
        ("seam_attributes", sliceHex q 160 8),
        ("td_attributes", sliceHex q 168 8),
        ("xfam", sliceHex q 176 8),
        ("mrtd", sliceHex q 184 48),
        ("mr_config_id", sliceHex q 232 48),
        ("mr_owner", sliceHex q 280 48),
        ("mr_owner_config", sliceHex q 328 48),
        ("rtmr0", sliceHex q 376 48),
        ("rtmr1", sliceHex q 424 48),
        ("rtmr2", sliceHex q 472 48),
        ("rtmr3", sliceHex q 520 48),
        ("report_data", sliceHex q 568 64) ]
    ∧ (∀ off len, off + len ≤ 584 → (sliceBytes q off len).length = len)
    ∧ ((sliceBytes q 568 64).length = 64 ↔ 632 ≤ q.length) := by
  refine ⟨?_, ?_, ?_⟩
  · rw [parse_tdx_quote_b64e q hb]
    unfold parseQuoteBytes
    rw [if_neg (by omega)]
  · intro off len hol
    simp only [sliceBytes, List.length_take, List.length_drop]
    omega
  · simp only [sliceBytes, List.length_take, List.length_drop]
    omega

/-- C1 witness: the amended field equations hold at the 632-byte all-zero
quote. -/
theorem C1_witness :
    (∀ b ∈ qW, b < 256) ∧ 584 ≤ qW.length ∧
    (parse_tdx_quote (String.mk (b64e qW)) =
      [ ("quote_size", .nat qW.length),
        ("version", .nat (qW.getD 0 0 + 256 * qW.getD 1 0)),
        ("tee_tcb_svn", sliceHex qW 48 16),
        ("mrseam", sliceHex qW 64 48),
        ("mrsigner_seam", sliceHex qW 112 48),
        ("seam_attributes", sliceHex qW 160 8),
        ("td_attributes", sliceHex qW 168 8),
        ("xfam", sliceHex qW 176 8),
        ("mrtd", sliceHex qW 184 48),
        ("mr_config_id", sliceHex qW 232 48),
        ("mr_owner", sliceHex qW 280 48),
        ("mr_owner_config", sliceHex qW 328 48),
        ("rtmr0", sliceHex qW 376 48),
        ("rtmr1", sliceHex qW 424 48),
        ("rtmr2", sliceHex qW 472 48),
        ("rtmr3", sliceHex qW 520 48),
        ("report_data", sliceHex qW 568 64) ]
    ∧ (∀ off len, off + len ≤ 584 → (sliceBytes qW off len).length = len)
    ∧ ((sliceBytes qW 568 64).length = 64 ↔ 632 ≤ qW.length)) := by
  have hb : ∀ b ∈ qW, b < 256 := by
    intro b hbm
    unfold qW at hbm
    have hb0 : b = 0 := List.eq_of_mem_replicate hbm
    omega
  have hl : 584 ≤ qW.length := by
    unfold qW
    rw [List.length_replicate]
    omega
  exact ⟨hb, hl, C1_quote_fields qW hb hl⟩

set_option maxRecDepth 40000 in
/-- C1 counterexample: at a quote of exactly 584 bytes — accepted by the
length guard — `report_data` is the hex of only 16 bytes (32 hex digits),
not of the documented 64-byte width (128 hex digits). -/
theorem C1_report_data_truncated :
    (parse_tdx_quote (String.mk (b64e qS))).lookup "report_data"
      = some (.str (String.mk (List.replicate 32 '0')))
    ∧ (String.mk (List.replicate 32 '0')).length = 32 ∧ (32 : Nat) ≠ 128 := by
  refine ⟨?_, rfl, by omega⟩
  rfl

/-! ## Claim C2 -/

/-- C2: for every quote byte sequence shorter than 584 bytes, decoding its
base64 encoding returns the mapping containing only the error indicator
`Quote too short`, and no measurement field is present. -/
theorem C2_quote_too_short (q : List Nat) (hb : ∀ b ∈ q, b < 256)
    (hs : q.length < 584) :
    parse_tdx_quote (String.mk (b64e q)) = [("error", .str "Quote too short")]
    ∧ ∀ k ∈ measurementKeys, (parse_tdx_quote (String.mk (b64e q))).lookup k = none := by
  have e : parse_tdx_quote (String.mk (b64e q)) = [("error", .str "Quote too short")] := by
    rw [parse_tdx_quote_b64e q hb]
    unfold parseQuoteBytes
    rw [if_pos hs]
  refine ⟨e, ?_⟩
  intro k hk
  rw [e]
  simp only [measurementKeys] at hk
  fin_cases hk <;> rfl

/-- C2 witness: the error result at a 10-byte quote. -/
theorem C2_witness :
    (∀ b ∈ qShort, b < 256) ∧ qShort.length < 584 ∧
    (parse_tdx_quote (String.mk (b64e qShort)) = [("error", .str "Quote too short")]
     ∧ ∀ k ∈ measurementKeys,
        (parse_tdx_quote (String.mk (b64e qShort))).lookup k = none) :=
  ⟨by decide, by decide, C2_quote_too_short qShort (by decide) (by decide)⟩

/-! ## `str.split` lemmas -/

theorem splitOnDot_no_dot (s : List Char) (h : '.' ∉ s) : splitOnDot s = [s] := by
  induction s with
  | nil => rfl
  | cons c r ih =>
    rw [List.mem_cons, not_or] at h
    have hc : ¬ c = '.' := fun he => h.1 he.symm
    rw [splitOnDot, ih h.2]
    simp [hc]

theorem splitOnDot_append (m rest : List Char) (hm : '.' ∉ m) :
    splitOnDot (m ++ '.' :: rest) = m :: splitOnDot rest := by
  induction m with
  | nil => simp [splitOnDot]
  | cons c t ih =>
    rw [List.mem_cons, not_or] at hm
    have hc : ¬ c = '.' := fun he => hm.1 he.symm
    rw [List.cons_append, splitOnDot, ih hm.2]
    simp [hc]

/-! ## Claim C3 -/

/-- C3 (amended): `parse_jwt_claims` is total by construction; any input
that does not split into exactly three dot-separated segments yields `{}`;
and for a three-segment input whose normalized middle segment base64url
decodes to JSON the result is the extraction `extractTdxClaims`: the seven
named `tdx` leaves when `tdx` maps to an object, the same seven keys all
bound to null — not the empty mapping — when `tdx` is absent, and `{}`
when the payload or the `tdx` value is not a JSON object. -/
theorem C3_jwt_claims (jwt : List Char) :
    ((splitOnDot jwt).length ≠ 3 → parseJwtClaimsL jwt = [])
    ∧ (∀ h m s, jwt = h ++ '.' :: (m ++ '.' :: s) → '.' ∉ h → '.' ∉ m → '.' ∉ s →
        ∀ bs v, b64d ((padB64 m).map urlFix) = some bs → jsonLoads bs = some v →
          parseJwtClaimsL jwt = extractTdxClaims v)
    ∧ tdxLeaves [] ≠ [] := by
  refine ⟨?_, ?_, by simp [tdxLeaves]⟩
  · intro hne
    simp [parseJwtClaimsL, hne]
  · intro h m s hjwt hh hm hs bs v hb hj
    subst hjwt
    have hsplit : splitOnDot (h ++ '.' :: (m ++ '.' :: s)) = [h, m, s] := by
      rw [splitOnDot_append h _ hh, splitOnDot_append m _ hm, splitOnDot_no_dot s hs]
    simp [parseJwtClaimsL, hsplit, hb, hj]

/-- C3 witness: the pipeline clause at the token `a.e30.b`, whose middle
segment decodes to the JSON object with no `tdx` key. -/
theorem C3_witness :
    ("a.e30.b".data = "a".data ++ '.' :: ("e30".data ++ '.' :: "b".data))
    ∧ '.' ∉ "a".data ∧ '.' ∉ "e30".data ∧ '.' ∉ "b".data
    ∧ b64d ((padB64 "e30".data).map urlFix) = some [123, 125]
    ∧ jsonLoads [123, 125] = some (.obj [])
    ∧ parseJwtClaimsL "a.e30.b".data = extractTdxClaims (.obj []) :=
  ⟨rfl, by decide, by decide, by decide, rfl, rfl,
   (C3_jwt_claims "a.e30.b".data).2.1 "a".data "e30".data "b".data rfl
     (by decide) (by decide) (by decide) [123, 125] (.obj []) rfl rfl⟩

/-- C3 counterexample: the token `x.e30.y` has three segments and its
middle segment decodes to valid JSON (`\x7b\x7d`, an object without a
`tdx` member), yet `parse_jwt_claims` returns the seven-key all-null
mapping, not `{}`. -/
theorem C3_absent_tdx_not_empty :
    parse_jwt_claims "x.e30.y" = tdxLeaves []
    ∧ tdxLeaves [] ≠ []
    ∧ b64d ((padB64 "e30".data).map urlFix) = some [123, 125]
    ∧ jsonLoads [123, 125] = some (.obj []) :=
  ⟨rfl, by simp [tdxLeaves], rfl, rfl⟩

/-! ## Claim C9 -/

/-- C9: a token whose middle segment lacks its `=` padding decodes to
exactly the same claims mapping as the token with the explicitly padded
middle segment. -/
theorem C9_padding_equiv (h m s : List Char) (hh : '.' ∉ h) (hm : '.' ∉ m)
    (hs : '.' ∉ s) (hlen : m.length % 4 ≠ 0) :
    parseJwtClaimsL (h ++ '.' :: ((m ++ List.replicate (4 - m.length % 4) '=') ++ '.' :: s))
      = parseJwtClaimsL (h ++ '.' :: (m ++ '.' :: s)) := by
  have hm2 : '.' ∉ m ++ List.replicate (4 - m.length % 4) '=' := by
    rw [List.mem_append, not_or]
    exact ⟨hm, by simp [List.mem_replicate]⟩
  have e1 : splitOnDot (h ++ '.' :: ((m ++ List.replicate (4 - m.length % 4) '=') ++ '.' :: s))
      = [h, m ++ List.replicate (4 - m.length % 4) '=', s] := by
    rw [splitOnDot_append h _ hh, splitOnDot_append _ _ hm2, splitOnDot_no_dot s hs]
  have e2 : splitOnDot (h ++ '.' :: (m ++ '.' :: s)) = [h, m, s] := by
    rw [splitOnDot_append h _ hh, splitOnDot_append m _ hm, splitOnDot_no_dot s hs]
  have epad : padB64 (m ++ List.replicate (4 - m.length % 4) '=') = padB64 m := by
    unfold padB64
    rw [List.length_append, List.length_replicate]
    rw [if_neg (by omega), if_pos (by omega)]
  simp only [parseJwtClaimsL, e1, e2, List.length_cons, List.length_nil,
    List.getD_cons_succ, List.getD_cons_zero, epad]

/-- C9 witness: the padding equivalence at the token `a.e30.b` against
`a.e30=.b`. -/
theorem C9_witness :
    ('.' ∉ "a".data) ∧ ('.' ∉ "e30".data) ∧ ('.' ∉ "b".data)
    ∧ "e30".data.length % 4 ≠ 0
    ∧ parseJwtClaimsL ("a".data ++ '.' ::
        (("e30".data ++ List.replicate (4 - "e30".data.length % 4) '=') ++ '.' :: "b".data))
      = parseJwtClaimsL ("a".data ++ '.' :: ("e30".data ++ '.' :: "b".data)) :=
  ⟨by decide, by decide, by decide, by decide,
   C9_padding_equiv "a".data "e30".data "b".data (by decide) (by decide) (by decide) (by decide)⟩

/-! ## Lifecycle helper lemmas -/

theorem find?_range60_of0 (p : Nat → Bool) (h : p 0 = true) :
    (List.range 60).find? p = some 0 := by
  have e : List.range 60 = 0 :: List.range' 1 59 := by decide
  rw [e]
  exact List.find?_cons_of_pos _ h

theorem find?_range60_none (p : Nat → Bool) (h : ∀ i, i < 60 → p i = false) :
    (List.range 60).find? p = none := by
  rw [List.find?_eq_none]
  intro x hx
  simp [h x (List.mem_range.1 hx)]

theorem mainRun_mounted (env : Env) (hm : env.mounted 0 = true) :
    mainRun env = mainBody env := by
  unfold mainRun
  rw [find?_range60_of0 _ hm]

theorem setupPhase_skip (env : Env) (hc : env.composePresent = false) :
    setupPhase env = ([], .ok ()) := by
  unfold setupPhase
  rw [hc]
  simp

theorem wait_for_health_ok (env : Env) (hh : env.healthOk 0 = true) :
    wait_for_health env
      = (["waiting_for_health"], .ok ⟨"healthy", some env.healthResponse, none⟩) := by
  unfold wait_for_health findHealth
  rw [find?_range60_of0 _ hh]

theorem wait_for_health_err (env : Env) (hh : ∀ i, i < 60 → env.healthOk i = false) :
    wait_for_health env
      = (["waiting_for_health"], .error (healthTimeoutMsg env.config)) := by
  unfold wait_for_health findHealth
  rw [find?_range60_none _ hh]

theorem get_tdx_attestation_no_tsm (env : Env) (h : HealthStatus)
    (ht : env.tsmPresent = false) :
    get_tdx_attestation env h = (["attesting"], .error tdxUnavailableMsg) := by
  unfold get_tdx_attestation generate_tdx_quote tdxUnavailableMsg
  rw [ht]
  simp

theorem get_tdx_attestation_tsm (env : Env) (h : HealthStatus)
    (ht : env.tsmPresent = true) :
    get_tdx_attestation env h
      = (["attesting"],
         .ok (applyIntel env (attestBase env h (String.mk (b64e env.outblob))))) := by
  unfold get_tdx_attestation generate_tdx_quote
  rw [ht]
  simp

theorem applyIntel_preserves (env : Env) (b : AttestResult) :
    (applyIntel env b).timestamp = b.timestamp
    ∧ (applyIntel env b).workload = b.workload
    ∧ (applyIntel env b).tdx.quote_b64 = b.tdx.quote_b64
    ∧ (applyIntel env b).tdx.measurements = b.tdx.measurements := by
  unfold applyIntel
  split
  · split
    · exact ⟨rfl, rfl, rfl, rfl⟩
    · exact ⟨rfl, rfl, rfl, rfl⟩
    · rename_i tok _
      by_cases hj : (parse_jwt_claims tok).isEmpty
      · simp [hj]
      · rw [Bool.not_eq_true] at hj
        simp [hj]
  · exact ⟨rfl, rfl, rfl, rfl⟩

theorem applyIntel_verified_source (env : Env) (b : AttestResult)
    (hb : b.tdx.verified_measurements = none) :
    (applyIntel env b).tdx.verified_measurements ≠ none →
      truthyS env.config.intelApiKey = true
      ∧ ∃ tok, env.intelResponse = .ok (some tok) := by
  unfold applyIntel
  split
  · rename_i hk
    split
    · simp [hb]
    · simp [hb]
    · rename_i tok heq
      by_cases hj : (parse_jwt_claims tok).isEmpty
      · simp [hj, hb]
      · rw [Bool.not_eq_true] at hj
        simp only [hj, Bool.false_eq_true, if_false]
        intro _
        exact ⟨hk, tok, heq⟩
  · simp [hb]

theorem applyIntel_no_key (env : Env) (b : AttestResult)
    (hk : truthyS env.config.intelApiKey = false) :
    applyIntel env b = b := by
  unfold applyIntel
  rw [hk]
  simp

theorem mainBody_measure (env : Env) (hca : env.configAppears = true)
    (hcp : env.composePresent = false)
    (hmode : env.config.mode.getD "measure" ≠ "persistent") :
    mainBody env = measureBranch env [] := by
  unfold mainBody
  rw [hca, setupPhase_skip env hcp]
  simp [hmode]

theorem mainBody_persistent (env : Env) (hca : env.configAppears = true)
    (hcp : env.composePresent = false)
    (hmode : env.config.mode.getD "measure" = "persistent") :
    mainBody env = persistentBranch env [] := by
  unfold mainBody
  rw [hca, setupPhase_skip env hcp]
  simp [hmode]

theorem persistentBranch_noprobe (env : Env) (sts0 : List String)
    (hhe : env.config.healthEndpoint = none) (hhu : env.config.healthUrl = none) :
    (persistentBranch env sts0).healthProbed = false
    ∧ (persistentBranch env sts0).errorLog = none
    ∧ (persistentBranch env sts0).outcome = .hold
    ∧ ∀ r, (persistentBranch env sts0).attestation = some r →
        r.workload.health_status = "unknown" := by
  have hcond : (truthyS env.config.healthEndpoint || truthyS env.config.healthUrl) = false := by
    rw [hhe, hhu]
    rfl
  unfold persistentBranch
  rw [hcond]
  simp only [Bool.false_eq_true, if_false]
  refine ⟨trivial, trivial, trivial, ?_⟩
  by_cases hk : truthyS env.config.intelApiKey
  · simp only [hk, if_true]
    cases ht : env.tsmPresent with
    | false =>
      rw [get_tdx_attestation_no_tsm env _ ht]
      simp
    | true =>
      rw [get_tdx_attestation_tsm env _ ht]
      intro r hr
      simp only [Option.some.injEq] at hr
      rw [← hr, (applyIntel_preserves env _).2.1]
      rfl
  · rw [Bool.not_eq_true] at hk
    rw [hk]
    simp only [Bool.false_eq_true, if_false]
    simp

/-! ## Claim C4 -/

/-- C4 (amended): an error outside the non-fatal set — here
`AttestationUnavailable`, raised when the TSM report path is absent — is
written to the error artifact and the status artifact and terminates the
process with a raised exception in measure mode; in persistent mode the
attestation cycle's errors are caught and logged, no error artifact is
written, and the run still reaches the persistent hold. -/
theorem C4_attestation_unavailable (env : Env) (hm : env.mounted 0 = true)
    (hca : env.configAppears = true) (hcp : env.composePresent = false)
    (ht : env.tsmPresent = false) :
    ((env.config.mode.getD "measure" ≠ "persistent") → env.healthOk 0 = true →
       (mainRun env).errorLog = some tdxUnavailableMsg
       ∧ "error" ∈ (mainRun env).statuses
       ∧ (mainRun env).outcome = .raisedErr tdxUnavailableMsg)
    ∧ ((env.config.mode.getD "measure" = "persistent") →
        env.config.healthEndpoint = none → env.config.healthUrl = none →
        (mainRun env).errorLog = none ∧ (mainRun env).outcome = .hold) := by
  constructor
  · intro hmode hh
    rw [mainRun_mounted env hm, mainBody_measure env hca hcp hmode]
    unfold measureBranch
    have hw : wait_for_health env
        = (["waiting_for_health"], .ok ⟨"healthy", some env.healthResponse, none⟩) := by
      unfold wait_for_health findHealth
      rw [find?_range60_of0 _ hh]
    rw [hw]
    simp only [errResult]
    rw [get_tdx_attestation_no_tsm env _ ht]
    refine ⟨rfl, ?_, rfl⟩
    simp only [errResult]
    decide
  · intro hmode hhe hhu
    rw [mainRun_mounted env hm, mainBody_persistent env hca hcp hmode]
    obtain ⟨_, h2, h3, _⟩ := persistentBranch_noprobe env [] hhe hhu
    exact ⟨h2, h3⟩

/-- C4 witness: measure mode with the TSM interface absent writes the
error artifact and raises. -/
theorem C4_witness :
    envMeasureNoTsm.mounted 0 = true ∧ envMeasureNoTsm.configAppears = true
    ∧ envMeasureNoTsm.composePresent = false ∧ envMeasureNoTsm.tsmPresent = false
    ∧ ((mainRun envMeasureNoTsm).errorLog = some tdxUnavailableMsg
       ∧ "error" ∈ (mainRun envMeasureNoTsm).statuses
       ∧ (mainRun envMeasureNoTsm).outcome = .raisedErr tdxUnavailableMsg) :=
  ⟨rfl, rfl, rfl, rfl,
   (C4_attestation_unavailable envMeasureNoTsm rfl rfl rfl rfl).1 (by decide) rfl⟩

/-- C4 counterexample: in persistent mode with an API key and the TSM
interface absent, `AttestationUnavailable` is raised inside the guarded
attestation block — contrary to the claim it does not propagate: no error
artifact, no `error` status, and the run reaches the persistent hold. -/
theorem C4_persistent_swallows :
    envPersistNoTsm.tsmPresent = false
    ∧ (mainRun envPersistNoTsm).errorLog = none
    ∧ (mainRun envPersistNoTsm).outcome = .hold
    ∧ "error" ∉ (mainRun envPersistNoTsm).statuses := by
  refine ⟨rfl, rfl, rfl, by decide⟩

/-! ## Claim C5 -/

/-- C5 (amended): when the shared directory is never detected as mounted
across the 60-attempt budget (and the final re-check), `main` returns exit
code 1 — but, contrary to the Error-transition write rule, it writes
neither the error artifact nor any status value: the mount-wait loop runs
before the top-level exception handler. -/
theorem C5_mount_timeout (env : Env) (hnm : ∀ i, i ≤ 60 → env.mounted i = false) :
    mainRun env = ⟨[], none, none, false, .exited 1⟩ := by
  unfold mainRun
  rw [find?_range60_none _ (fun i hi => hnm i (by omega))]
  rw [hnm 60 (by omega)]
  simp

/-- C5 witness: the amended conclusion at the never-mounted environment. -/
theorem C5_witness : mainRun envNoMount = ⟨[], none, none, false, .exited 1⟩ :=
  C5_mount_timeout envNoMount (fun _ _ => rfl)

/-- C5 counterexample: on mount timeout the process exits non-zero but the
error artifact and the status artifact are never written, contradicting
the claimed Error-transition writes. -/
theorem C5_no_error_write :
    (mainRun envNoMount).errorLog = none
    ∧ (mainRun envNoMount).statuses = []
    ∧ (mainRun envNoMount).outcome = .exited 1 :=
  ⟨rfl, rfl, rfl⟩

/-! ## Claim C6 -/

/-- C6: in measure mode with no compose descriptor in the share, the
`building` status is never written during the run and the first status
written is the health-wait phase. -/
theorem C6_skips_building (env : Env) (hm : env.mounted 0 = true)
    (hca : env.configAppears = true) (hmode : env.config.mode = some "measure")
    (hcp : env.composePresent = false) :
    "building" ∉ (mainRun env).statuses
    ∧ (mainRun env).statuses.head? = some "waiting_for_health" := by
  have hmode' : env.config.mode.getD "measure" ≠ "persistent" := by
    rw [hmode]
    decide
  rw [mainRun_mounted env hm, mainBody_measure env hca hcp hmode']
  unfold measureBranch
  cases hfh : findHealth env with
  | none =>
    have hw : wait_for_health env
        = (["waiting_for_health"], .error (healthTimeoutMsg env.config)) := by
      unfold wait_for_health
      rw [hfh]
    rw [hw]
    simp only [errResult]
    exact ⟨by decide, by decide⟩
  | some i =>
    have hw : wait_for_health env
        = (["waiting_for_health"], .ok ⟨"healthy", some env.healthResponse, none⟩) := by
      unfold wait_for_health
      rw [hfh]
    rw [hw]
    simp only [errResult]
    cases ht : env.tsmPresent with
    | false =>
      rw [get_tdx_attestation_no_tsm env _ ht]
      simp only [errResult]
      exact ⟨by decide, by decide⟩
    | true =>
      rw [get_tdx_attestation_tsm env _ ht]
      simp only [errResult]
      exact ⟨by decide, by decide⟩

/-- C6 witness: the skip at the measure-mode environment without compose
descriptor. -/
theorem C6_witness :
    envMeasure.mounted 0 = true ∧ envMeasure.configAppears = true
    ∧ envMeasure.config.mode = some "measure" ∧ envMeasure.composePresent = false
    ∧ ("building" ∉ (mainRun envMeasure).statuses
       ∧ (mainRun envMeasure).statuses.head? = some "waiting_for_health") :=
  ⟨rfl, rfl, rfl, rfl, C6_skips_building envMeasure rfl rfl rfl rfl⟩

/-! ## Claim C7 -/

/-- C7: a successfully produced attestation result always carries the
locally parsed measurements; it carries `verified_measurements` only when
an API key was configured and the Trust Authority call returned a token;
and with no API key configured the result has no `intel_ta_token` and no
`verified_measurements`, local measurements are still present, and the
measure-mode controller reaches `ready` with exit code 0. -/
theorem C7_attestation_invariant (env : Env) (hstat : HealthStatus)
    (ht : env.tsmPresent = true) :
    (∃ r, (get_tdx_attestation env hstat).2 = .ok r
       ∧ r.tdx.measurements = parse_tdx_quote (String.mk (b64e env.outblob))
       ∧ (r.tdx.verified_measurements ≠ none →
            truthyS env.config.intelApiKey = true
            ∧ ∃ tok, env.intelResponse = .ok (some tok))
       ∧ (truthyS env.config.intelApiKey = false →
            r.tdx.intel_ta_token = none ∧ r.tdx.verified_measurements = none))
    ∧ (env.mounted 0 = true → env.configAppears = true → env.composePresent = false →
        env.config.mode.getD "measure" ≠ "persistent" → env.healthOk 0 = true →
        truthyS env.config.intelApiKey = false →
        ∃ r, (mainRun env).attestation = some r ∧ (mainRun env).outcome = .exited 0
          ∧ "ready" ∈ (mainRun env).statuses
          ∧ r.tdx.intel_ta_token = none ∧ r.tdx.verified_measurements = none
          ∧ r.tdx.measurements = parse_tdx_quote (String.mk (b64e env.outblob))) := by
  constructor
  · refine ⟨applyIntel env (attestBase env hstat (String.mk (b64e env.outblob))),
      ?_, ?_, ?_, ?_⟩
    · rw [get_tdx_attestation_tsm env hstat ht]
    · exact ((applyIntel_preserves env _).2.2.2).trans rfl
    · exact applyIntel_verified_source env _ rfl
    · intro hk
      rw [applyIntel_no_key env _ hk]
      exact ⟨rfl, rfl⟩
  · intro hm hca hcp hmode hh hk
    rw [mainRun_mounted env hm, mainBody_measure env hca hcp hmode]
    unfold measureBranch
    have hw : wait_for_health env
        = (["waiting_for_health"], .ok ⟨"healthy", some env.healthResponse, none⟩) := by
      unfold wait_for_health findHealth
      rw [find?_range60_of0 _ hh]
    rw [hw]
    simp only [errResult]
    rw [get_tdx_attestation_tsm env _ ht, applyIntel_no_key env _ hk]
    refine ⟨attestBase env ⟨"healthy", some env.healthResponse, none⟩
             (String.mk (b64e env.outblob)),
           rfl, rfl, ?_, rfl, rfl, rfl⟩
    simp only [errResult]
    decide

/-- C7 witness: the invariant at the benign keyless environment. -/
theorem C7_witness :
    defEnv.tsmPresent = true
    ∧ ((∃ r, (get_tdx_attestation defEnv ⟨"healthy", some defEnv.healthResponse, none⟩).2 = .ok r
         ∧ r.tdx.measurements = parse_tdx_quote (String.mk (b64e defEnv.outblob))
         ∧ (r.tdx.verified_measurements ≠ none →
              truthyS defEnv.config.intelApiKey = true
              ∧ ∃ tok, defEnv.intelResponse = .ok (some tok))
         ∧ (truthyS defEnv.config.intelApiKey = false →
              r.tdx.intel_ta_token = none ∧ r.tdx.verified_measurements = none))
       ∧ (defEnv.mounted 0 = true → defEnv.configAppears = true →
           defEnv.composePresent = false →
           defEnv.config.mode.getD "measure" ≠ "persistent" → defEnv.healthOk 0 = true →
           truthyS defEnv.config.intelApiKey = false →
           ∃ r, (mainRun defEnv).attestation = some r
             ∧ (mainRun defEnv).outcome = .exited 0
             ∧ "ready" ∈ (mainRun defEnv).statuses
             ∧ r.tdx.intel_ta_token = none ∧ r.tdx.verified_measurements = none
             ∧ r.tdx.measurements = parse_tdx_quote (String.mk (b64e defEnv.outblob)))) :=
  ⟨rfl, C7_attestation_invariant defEnv ⟨"healthy", some defEnv.healthResponse, none⟩ rfl⟩

/-! ## Claim C8 -/

/-- C8 (amended): the `workload.compose_hash` field is `sha256:<hex>`
where `<hex>` is the SHA-256 hex digest of the exact bytes of the compose
descriptor, deterministically; when the descriptor is absent the digest
part is empty, so the field is the seven-character string `sha256:` — not
the empty string. -/
theorem C8_compose_hash (env : Env) (hstat : HealthStatus)
    (ht : env.tsmPresent = true) :
    ∃ r, (get_tdx_attestation env hstat).2 = .ok r
      ∧ r.workload.compose_hash = "sha256:" ++ compute_compose_hash env
      ∧ (env.composePresent = true → compute_compose_hash env = sha256hex env.composeBytes)
      ∧ (env.composePresent = false → r.workload.compose_hash = "sha256:")
      ∧ (∀ env2 : Env, env2.composePresent = true → env.composePresent = true →
          env2.composeBytes = env.composeBytes →
          compute_compose_hash env2 = compute_compose_hash env) := by
  refine ⟨applyIntel env (attestBase env hstat (String.mk (b64e env.outblob))),
    ?_, ?_, ?_, ?_, ?_⟩
  · rw [get_tdx_attestation_tsm env hstat ht]
  · rw [(applyIntel_preserves env _).2.1]
    rfl
  · intro hcp
    unfold compute_compose_hash
    rw [hcp]
    simp
  · intro hcp
    rw [(applyIntel_preserves env _).2.1]
    show "sha256:" ++ compute_compose_hash env = "sha256:"
    unfold compute_compose_hash
    rw [hcp]
    simp only [Bool.false_eq_true, if_false]
    rfl
  · intro env2 h2 h1 heq
    unfold compute_compose_hash
    rw [h2, h1, heq]

/-- C8 witness: the digest field at an environment whose compose
descriptor holds the bytes `abc`. -/
theorem C8_witness :
    envCompose.tsmPresent = true
    ∧ (∃ r, (get_tdx_attestation envCompose ⟨"healthy", none, none⟩).2 = .ok r
        ∧ r.workload.compose_hash = "sha256:" ++ compute_compose_hash envCompose
        ∧ (envCompose.composePresent = true →
            compute_compose_hash envCompose = sha256hex envCompose.composeBytes)
        ∧ (envCompose.composePresent = false → r.workload.compose_hash = "sha256:")
        ∧ (∀ env2 : Env, env2.composePresent = true → envCompose.composePresent = true →
            env2.composeBytes = envCompose.composeBytes →
            compute_compose_hash env2 = compute_compose_hash envCompose)) :=
  ⟨rfl, C8_compose_hash envCompose ⟨"healthy", none, none⟩ rfl⟩

set_option maxRecDepth 40000 in
/-- C8 counterexample: with the compose descriptor absent the written
field is the string `sha256:`, not the empty string the claim requires. -/
theorem C8_absent_not_empty :
    ((mainRun defEnv).attestation.map fun r => r.workload.compose_hash) = some "sha256:"
    ∧ "sha256:" ≠ ("" : String) := by
  refine ⟨rfl, by decide⟩

/-! ## Claim C10 -/

/-- C10: in persistent mode with neither `health_endpoint` nor
`health_url` configured, the health probe is never attempted and any
written attestation result records `workload.health_status = "unknown"` —
the documented `/health` default is not applied in this branch. -/
theorem C10_no_probe_unknown (env : Env) (hm : env.mounted 0 = true)
    (hca : env.configAppears = true)
    (hmode : env.config.mode.getD "measure" = "persistent")
    (hhe : env.config.healthEndpoint = none) (hhu : env.config.healthUrl = none) :
    (mainRun env).healthProbed = false
    ∧ ∀ r, (mainRun env).attestation = some r →
        r.workload.health_status = "unknown" := by
  rw [mainRun_mounted env hm]
  cases hcp : env.composePresent with
  | false =>
    rw [mainBody_persistent env hca hcp hmode]
    obtain ⟨h1, _, _, h4⟩ := persistentBranch_noprobe env [] hhe hhu
    exact ⟨h1, h4⟩
  | true =>
    unfold mainBody
    rw [hca, if_neg (by simp)]
    have hsp : setupPhase env
        = (["setup", "building"],
           if env.composeOk then .ok ()
           else .error ("Docker compose failed: " ++ env.composeStderr)) := by
      unfold setupPhase
      rw [hcp]
      simp
    rw [hsp]
    cases hco : env.composeOk with
    | false =>
      simp only [Bool.false_eq_true, if_false]
      exact ⟨rfl, by simp [errResult]⟩
    | true =>
      rw [if_pos rfl]
      simp only [errResult]
      rw [if_pos hmode]
      obtain ⟨h1, _, _, h4⟩ := persistentBranch_noprobe env ["setup", "building"] hhe hhu
      exact ⟨h1, h4⟩

/-- C10 witness: the probe-free persistent run with an API key present. -/
theorem C10_witness :
    envPersist.mounted 0 = true ∧ envPersist.configAppears = true
    ∧ envPersist.config.mode.getD "measure" = "persistent"
    ∧ envPersist.config.healthEndpoint = none ∧ envPersist.config.healthUrl = none
    ∧ ((mainRun envPersist).healthProbed = false
       ∧ ∀ r, (mainRun envPersist).attestation = some r →
           r.workload.health_status = "unknown") :=
  ⟨rfl, rfl, rfl, rfl, rfl, C10_no_probe_unknown envPersist rfl rfl rfl rfl rfl⟩

end Launcher
